import Mathlib

/-!
# TubeInsight — formal model of the transcript pipeline

Shallow embedding of the TubeInsight sources:
  * `src/services/youtube.py`    — URL parsing, metadata, audio download
  * `src/services/transcript.py` — transcript scraping, Whisper fallback, persistence
  * `src/services/gemini.py`     — prompt assembly, summarization, Q&A streaming
  * `src/app.py`                 — orchestrator and interactive loop

External effects (HTTP responses, the Whisper model output, the Gemini
backend, the file system) are modelled as explicit inputs; the file system
is a map from path to optional content.
-/

namespace TubeInsight

/-- Python's `str.strip()`: remove leading and trailing whitespace. -/
def pyStrip (s : String) : String :=
  String.mk (((s.data.dropWhile Char.isWhitespace).reverse.dropWhile Char.isWhitespace).reverse)

/-- Python's `str.lower()` (ASCII case folding, which is all the orchestrator
compares against: `"exit"` / `"quit"`). -/
def pyLower (s : String) : String :=
  String.mk (s.data.map Char.toLower)

/-- Python's slice `s[:n]`: the first `n` characters. -/
def pyTake (s : String) (n : Nat) : String :=
  String.mk (s.data.take n)

/-- Video metadata as produced by `get_video_info` in `src/services/youtube.py`:
title, channel, views, description (views rendered as a string; the code
falls back to `"Unknown"` strings on failure). -/
structure VideoInfo where
  title : String
  channel : String
  views : String
  description : String
deriving DecidableEq

/-- The local file system, as a map from path to optional file content. -/
def FS : Type := String → Option String

/-- The fixed output path used by `save_transcript_with_metadata`. -/
def transcriptPath : String := "data/transcript.txt"

/-- `src/services/transcript.py`, lines 59-61: `description[:150] + "..."`
when `len(description) > 150`, otherwise the description unchanged. -/
def truncateDescription (d : String) : String :=
  if d.length > 150 then pyTake d 150 ++ "..." else d

/-- The exact string written by `save_transcript_with_metadata`
(`src/services/transcript.py`, lines 64-71): a four-line metadata header,
a blank line, a `Transcript:` label, a blank line, then the transcript. -/
def fileContent (info : VideoInfo) (transcript : String) : String :=
  "Title: " ++ info.title ++ "\n" ++
  "Channel: " ++ info.channel ++ "\n" ++
  "Views: " ++ info.views ++ "\n" ++
  "Description: " ++ truncateDescription info.description ++ "\n\n" ++
  "Transcript:\n\n" ++ transcript

/-- `save_transcript_with_metadata` (`src/services/transcript.py`, lines 46-73):
writes `fileContent` to the fixed path `data/transcript.txt`, overwriting any
prior content; no other path is touched. -/
def save_transcript_with_metadata (info : VideoInfo) (transcript : String) (fs : FS) : FS :=
  fun p => if p = transcriptPath then some (fileContent info transcript) else fs p

/-- Outcome of the HTTP POST to the scraping endpoint, as seen by
`get_youtube_transcript`: a request-level failure (`requests.RequestException`,
caught at lines 106-108), or a parsed response carrying the list of
`span.transcript-segment` texts (each segment's `get_text(strip=True)`
corresponds to trimming the raw text). -/
inductive ScrapeResponse where
  | httpError
  | ok (segments : List String)

/-- Python's `" ".join`: concatenation with a single-space separator. -/
def joinWithSpace : List String → String
  | [] => ""
  | [s] => s
  | s :: t :: rest => s ++ " " ++ joinWithSpace (t :: rest)

/-- `src/services/transcript.py`, line 123:
`" ".join(seg.get_text(strip=True) for seg in segments if seg.get_text(strip=True))` —
trim every segment, keep the non-empty ones in order, join with single spaces. -/
def joinSegments (segs : List String) : String :=
  joinWithSpace ((segs.map (fun s => pyStrip s)).filter (fun t => t ≠ ""))

/-- `get_youtube_transcript` (`src/services/transcript.py`, lines 83-129).
HTTP failure → `("", none)`; zero parsed segments → `("", none)`; a joined
transcript that is empty → `("", none)`; otherwise the transcript is saved
with metadata and `(transcript, some "auto")` is returned. The returned `FS`
is the file system after the call. -/
def get_youtube_transcript (resp : ScrapeResponse) (info : VideoInfo) (fs : FS) :
    (String × Option String) × FS :=
  match resp with
  | .httpError => (("", none), fs)
  | .ok segments =>
    if segments.isEmpty then (("", none), fs)
    else
      let transcript := joinSegments segments
      if transcript = "" then (("", none), fs)
      else ((transcript, some "auto"), save_transcript_with_metadata info transcript fs)

/-- `transcribe_with_whisper` (`src/services/transcript.py`, lines 137-165).
`modelOuta` is the Whisper `result.get("text", "")` value, `none` standing for
an exception anywhere inside the `try` block (caught at lines 163-165 and
converted to `""`). The stripped text is saved only when non-empty. -/
def transcribe_with_whisper (modelOuta : Option String) (info : VideoInfo) (fs : FS) :
    String × FS :=
  match modelOuta with
  | none => ("", fs)
  | some raw =>
    let text := pyStrip raw
    if text = "" then (text, fs)
    else (text, save_transcript_with_metadata info text fs)

/-- Acquisition steps the orchestrator can invoke, in `main` of `src/app.py`. -/
inductive Step where
  | scrape
  | downloadAudio
  | whisper
deriving DecidableEq

/-- The transcript-acquisition part of `main` (`src/app.py`, lines 47-56):
try the scrape; if the transcript is falsy, download audio (`audio` is
`download_audio`'s result, `""` on failure) and, when the download produced a
file, run Whisper and set the language tag to `"auto"`. The trace records
which acquisition paths were invoked, in order. -/
def mainAcquire (resp : ScrapeResponse) (info : VideoInfo) (audio : String)
    (modelOuta : Option String) (fs : FS) :
    (String × Option String) × FS × List Step :=
  let r := get_youtube_transcript resp info fs
  if r.1.1 = "" then
    if audio = "" then (r.1, r.2, [Step.scrape, Step.downloadAudio])
    else
      let w := transcribe_with_whisper modelOuta info r.2
      ((w.1, some "auto"), w.2, [Step.scrape, Step.downloadAudio, Step.whisper])
  else (r.1, r.2, [Step.scrape])

/-! ## Gemini prompt assembly (`src/services/gemini.py`) -/

/-- Accumulation of streamed chunks (`for chunk in response_stream: if
chunk.text: final_text += chunk.text`, lines 137-141): falsy (empty) chunks
are skipped, the rest are concatenated in order. -/
def joinChunks (chunks : List String) : String :=
  chunks.foldl (fun acc c => if c = "" then acc else acc ++ c) ""

/-- The prompt built by `summarize` (`src/services/gemini.py`, lines 58-65). -/
def summaryPrompt (info : VideoInfo) (transcript : String) : String :=
  "Video Info:\n" ++
  "Title: " ++ info.title ++ "\n" ++
  "Channel: " ++ info.channel ++ "\n" ++
  "Views: " ++ info.views ++ "\n" ++
  "Description: " ++ info.description ++ "\n\n" ++
  "Transcript:\n" ++ transcript

/-- `summarize` (`src/services/gemini.py`, lines 38-84): the backend is a
function from the prompt to `none` (an exception, caught at lines 82-84,
yielding `""`) or the list of streamed chunks. -/
def summarize (backend : String → Option (List String)) (transcript : String)
    (info : VideoInfo) : String :=
  match backend (summaryPrompt info transcript) with
  | none => ""
  | some chunks => joinChunks chunks

/-- Python's `chat_history[-10:]`: the last `n` elements of a list. -/
def lastN (n : Nat) (l : List (String × String)) : List (String × String) :=
  l.drop (l.length - n)

/-- The history block of the Q&A prompt (`src/services/gemini.py`, lines
125-126): `f"Q{i}: {q}\nA{i}: {a}\n\n"` for each pair, numbered from the
given start index. -/
def historyLines : Nat → List (String × String) → String
  | _, [] => ""
  | i, (q, a) :: rest =>
    "Q" ++ toString i ++ ": " ++ q ++ "\n" ++
    "A" ++ toString i ++ ": " ++ a ++ "\n\n" ++
    historyLines (i + 1) rest

/-- The fixed leading part of the Q&A prompt (`src/services/gemini.py`,
lines 114-121). -/
def basePrompt (info : VideoInfo) (transcript : String) : String :=
  "Video Info:\n" ++
  "Title: " ++ info.title ++ "\n" ++
  "Channel: " ++ info.channel ++ "\n" ++
  "Views: " ++ info.views ++ "\n" ++
  "Description: " ++ info.description ++ "\n\n" ++
  "Transcript:\n" ++ transcript ++ "\n\n"

/-- The full Q&A prompt (`src/services/gemini.py`, lines 114-129): base part,
then — when the history is non-empty — the numbered last-10 history block,
then `"Current Question: "` and the question. -/
def buildPrompt (info : VideoInfo) (transcript question : String)
    (history : List (String × String)) : String :=
  (if history.isEmpty then basePrompt info transcript
   else basePrompt info transcript ++ historyLines 1 (lastN 10 history)) ++
  ("Current Question: " ++ question)

/-- `ask_question_stream` (`src/services/gemini.py`, lines 93-148): builds the
prompt, streams the backend response, accumulates non-empty chunks; any
exception (lines 146-148) yields `""`. -/
def ask_question_stream (backend : String → Option (List String)) (info : VideoInfo)
    (transcript question : String) (history : List (String × String)) : String :=
  match backend (buildPrompt info transcript question history) with
  | none => ""
  | some chunks => joinChunks chunks

/-- The interactive Q&A loop of `main` (`src/app.py`, lines 76-82), run over a
list of raw user inputs: each input is stripped; `exit`/`quit`
(case-insensitive) breaks the loop; otherwise the answer is computed by
`ask_question_stream` and `(question, answer)` is appended to the history.
Returns the final chat history. -/
def qaLoop (backend : String → Option (List String)) (info : VideoInfo)
    (transcript : String) :
    List String → List (String × String) → List (String × String)
  | [], h => h
  | raw :: rest, h =>
    let question := pyStrip raw
    if pyLower question = "exit" ∨ pyLower question = "quit" then h
    else
      qaLoop backend info transcript rest
        (h ++ [(question, ask_question_stream backend info transcript question h)])

/-! ## URL parser (`src/services/youtube.py`, `get_video_id`) -/

/-- The character class `[0-9A-Za-z_-]` of the video-id pattern. -/
def isIdChar (c : Char) : Bool :=
  c.isAlphanum || c = '_' || c = '-'

/-- Match a literal marker at the head of the character list, returning the
remainder on success (the regex's literal alternatives are markers). -/
def stripLit : List Char → List Char → Option (List Char)
  | [], cs => some cs
  | _ :: _, [] => none
  | a :: m, b :: cs => if a = b then stripLit m cs else none

/-- The capturing group `([0-9A-Za-z_-]{11})`: exactly 11 id-characters,
taken greedily from the front of the remainder. -/
def take11Id (cs : List Char) : Option String :=
  let first := cs.take 11
  if first.length = 11 ∧ first.all isIdChar = true then some (String.mk first) else none

/-- One regex alternative: a literal marker followed by the 11-char group. -/
def tryMarker (m cs : List Char) : Option String :=
  match stripLit m cs with
  | none => none
  | some rest => take11Id rest

/-- A match attempt at a fixed position, trying the alternatives of
`(?:youtu\.be/|youtube\.com/(?:watch\?v=|embed/|shorts/))([0-9A-Za-z_-]{11})`
left to right, as `re.search` does. -/
def matchHere (cs : List Char) : Option String :=
  tryMarker "youtu.be/".data cs <|>
  tryMarker "youtube.com/watch?v=".data cs <|>
  tryMarker "youtube.com/embed/".data cs <|>
  tryMarker "youtube.com/shorts/".data cs

/-- `re.search`: try every position left to right, returning the leftmost
match's captured group. -/
def searchFrom : List Char → Option String
  | [] => none
  | c :: cs =>
    match matchHere (c :: cs) with
    | some v => some v
    | none => searchFrom cs

/-- `get_video_id` (`src/services/youtube.py`, lines 24-46): `re.search` of the
pattern over the URL, returning the captured group or `none`. -/
def get_video_id (url : String) : Option String :=
  searchFrom url.data

/-! ## Helper lemmas -/

theorem joinWithSpace_ne_empty {l : List String} (hne : l ≠ [])
    (hall : ∀ s ∈ l, s ≠ "") : joinWithSpace l ≠ "" := by
  match l, hne with
  | [s], _ =>
    simpa using hall s (by simp)
  | s :: t :: rest, _ =>
    intro hcontra
    have hs : s ≠ "" := hall s (by simp)
    have hlen := congrArg String.length hcontra
    simp only [joinWithSpace, String.length_append, String.length_empty] at hlen
    have : s.length = 0 := by omega
    exact hs (by cases s with | mk d => cases d with | nil => rfl | cons a l => simp at this)

theorem joinSegments_ne_empty {segs : List String}
    (h : ∃ s ∈ segs, pyStrip s ≠ "") : joinSegments segs ≠ "" := by
  obtain ⟨s, hs, hstrip⟩ := h
  apply joinWithSpace_ne_empty
  · intro hnil
    have : pyStrip s ∈ (segs.map (fun s => pyStrip s)).filter (fun t => t ≠ "") := by
      simp only [List.mem_filter, List.mem_map]
      exact ⟨⟨s, hs, rfl⟩, by simpa using hstrip⟩
    rw [hnil] at this
    exact List.not_mem_nil _ this
  · intro t ht
    have := List.of_mem_filter ht
    simpa using this

/-- C3: if the scraper's HTTP POST fails, or the response parses to zero
transcript segments, `get_youtube_transcript` returns the sentinel pair
`("", none)` and, being a total function of the modelled outcome, propagates
no exception to its caller. -/
theorem scrape_failure_returns_sentinel (info : VideoInfo) (fs : FS) :
    get_youtube_transcript .httpError info fs = (("", none), fs) ∧
    get_youtube_transcript (.ok []) info fs = (("", none), fs) :=
  ⟨rfl, rfl⟩

/-- C2: when at least one scraped segment has non-whitespace text,
`get_youtube_transcript` returns the single-space join of the trimmed
non-empty segment texts (in order, empty-trim segments skipped) tagged
`"auto"`, and persists that text via the Transcript Store; in particular
segments `"Hello"`, `"world"` yield `("Hello world", some "auto")`. -/
theorem scrape_success_joins_and_persists (segs : List String) (info : VideoInfo) (fs : FS)
    (h : ∃ s ∈ segs, pyStrip s ≠ "") :
    (get_youtube_transcript (.ok segs) info fs).1 = (joinSegments segs, some "auto") ∧
    (get_youtube_transcript (.ok segs) info fs).2 transcriptPath
      = some (fileContent info (joinSegments segs)) ∧
    (get_youtube_transcript (.ok ["Hello", "world"]) info fs).1 = ("Hello world", some "auto") := by
  have hne : segs.isEmpty = false := by
    obtain ⟨s, hs, _⟩ := h
    cases segs with
    | nil => cases hs
    | cons a l => rfl
  have hj : joinSegments segs ≠ "" := joinSegments_ne_empty h
  refine ⟨?_, ?_, rfl⟩ <;>
    simp [get_youtube_transcript, hne, hj, save_transcript_with_metadata]

theorem scrape_success_joins_and_persists_witness :
    (∃ s ∈ ["Hello", "world"], pyStrip s ≠ "") ∧
    (get_youtube_transcript (.ok ["Hello", "world"]) ⟨"T", "C", "V", "D"⟩ (fun _ => none)).1
      = (joinSegments ["Hello", "world"], some "auto") :=
  ⟨⟨"Hello", by decide⟩,
   (scrape_success_joins_and_persists ["Hello", "world"] ⟨"T", "C", "V", "D"⟩ (fun _ => none)
     ⟨"Hello", by decide⟩).1⟩

/-- C1: whenever the scrape step returns a non-empty transcript, the
orchestrator's acquisition trace contains neither the audio-download step nor
the local-transcription step — the fallback short-circuits. -/
theorem scrape_nonempty_shortcircuits (resp : ScrapeResponse) (info : VideoInfo)
    (audio : String) (modelOuta : Option String) (fs : FS)
    (h : (get_youtube_transcript resp info fs).1.1 ≠ "") :
    Step.downloadAudio ∉ (mainAcquire resp info audio modelOuta fs).2.2 ∧
    Step.whisper ∉ (mainAcquire resp info audio modelOuta fs).2.2 := by
  have e : mainAcquire resp info audio modelOuta fs
      = ((get_youtube_transcript resp info fs).1, (get_youtube_transcript resp info fs).2,
         [Step.scrape]) := by
    simp only [mainAcquire, if_neg h]
  rw [e]
  constructor <;> simp

theorem scrape_nonempty_shortcircuits_witness :
    (get_youtube_transcript (.ok ["Hello"]) ⟨"T", "C", "V", "D"⟩ (fun _ => none)).1.1 ≠ "" ∧
    Step.downloadAudio ∉
      (mainAcquire (.ok ["Hello"]) ⟨"T", "C", "V", "D"⟩ "audio.mp3" none (fun _ => none)).2.2 :=
  ⟨by decide, (scrape_nonempty_shortcircuits _ _ _ _ _ (by decide)).1⟩

/-- C10: whenever an acquisition path produces no usable text (the scrape
returns the empty sentinel, or the local transcriber's stripped output is
empty), the file system — in particular `data/transcript.txt` — is returned
unchanged: the Transcript Store is not invoked. -/
theorem empty_acquisition_leaves_fs_unchanged (resp : ScrapeResponse) (modelOuta : Option String)
    (info : VideoInfo) (fs : FS) :
    ((get_youtube_transcript resp info fs).1.1 = "" →
      (get_youtube_transcript resp info fs).2 = fs) ∧
    ((transcribe_with_whisper modelOuta info fs).1 = "" →
      (transcribe_with_whisper modelOuta info fs).2 = fs) := by
  constructor
  · intro h
    match resp with
    | .httpError => rfl
    | .ok segs =>
      by_cases he : segs.isEmpty
      · simp [get_youtube_transcript, he]
      · by_cases hj : joinSegments segs = ""
        · simp [get_youtube_transcript, he, hj]
        · simp [get_youtube_transcript, he, hj] at h
  · intro h
    match modelOuta with
    | none => rfl
    | some raw =>
      by_cases hs : pyStrip raw = ""
      · simp [transcribe_with_whisper, hs]
      · simp [transcribe_with_whisper, hs] at h

theorem empty_acquisition_leaves_fs_unchanged_witness :
    (get_youtube_transcript .httpError ⟨"T", "C", "V", "D"⟩ (fun _ => none)).2
      = (fun _ => none) ∧
    (transcribe_with_whisper none ⟨"T", "C", "V", "D"⟩ (fun _ => none)).2 = (fun _ => none) :=
  ⟨(empty_acquisition_leaves_fs_unchanged .httpError none ⟨"T", "C", "V", "D"⟩ (fun _ => none)).1 rfl,
   (empty_acquisition_leaves_fs_unchanged .httpError none ⟨"T", "C", "V", "D"⟩ (fun _ => none)).2 rfl⟩

/-- C4: the Q&A prompt is the fixed base part, then the numbered history block
built from the last 10 history pairs — a suffix of the history, hence in
original chronological order, of length at most 10 — then the current
question labeled `Current Question:`. -/
theorem prompt_history_capped (info : VideoInfo) (t q : String)
    (history : List (String × String)) :
    buildPrompt info t q history
      = basePrompt info t ++ historyLines 1 (lastN 10 history)
        ++ ("Current Question: " ++ q) ∧
    (lastN 10 history).length ≤ 10 ∧
    lastN 10 history <:+ history := by
  refine ⟨?_, ?_, List.drop_suffix _ _⟩
  · by_cases he : history.isEmpty
    · have hnil : history = [] := by simpa using he
      subst hnil
      simp [buildPrompt, lastN, historyLines]
    · simp [buildPrompt, he, String.append_assoc]
  · simp only [lastN, List.length_drop]
    omega

/-- C5: a backend failure inside `ask_question_stream` (and `summarize`) is
caught and yields the empty string, and the interactive loop appends the
`(question, "")` pair to the history and continues with the remaining
questions — it neither crashes nor terminates the session. -/
theorem backend_failure_tolerated (info : VideoInfo) (t raw q : String)
    (rest : List String) (hist h : List (String × String))
    (h1 : pyLower (pyStrip raw) ≠ "exit") (h2 : pyLower (pyStrip raw) ≠ "quit") :
    ask_question_stream (fun _ => none) info t q hist = "" ∧
    summarize (fun _ => none) t info = "" ∧
    qaLoop (fun _ => none) info t (raw :: rest) h
      = qaLoop (fun _ => none) info t rest (h ++ [(pyStrip raw, "")]) := by
  refine ⟨rfl, rfl, ?_⟩
  simp only [qaLoop]
  rw [if_neg (not_or.mpr ⟨h1, h2⟩)]
  rfl

theorem backend_failure_tolerated_witness :
    ask_question_stream (fun _ => none) ⟨"T", "C", "V", "D"⟩ "tr" "q" [] = "" ∧
    summarize (fun _ => none) "tr" ⟨"T", "C", "V", "D"⟩ = "" ∧
    qaLoop (fun _ => none) ⟨"T", "C", "V", "D"⟩ "tr" ["next?"] []
      = qaLoop (fun _ => none) ⟨"T", "C", "V", "D"⟩ "tr" [] [("next?", "")] :=
  backend_failure_tolerated ⟨"T", "C", "V", "D"⟩ "tr" "next?" "q" [] [] []
    (by decide) (by decide)

/-- C6 counterexample: with a backend that fails on every call, the loop still
appends the pair — `("What?", "")`, whose empty answer resulted from a failed
backend call, ends up in the final chat history, so entries are not appended
only after successful answers. -/
theorem failed_answer_still_appended :
    ("What?", "") ∈ qaLoop (fun _ => none) ⟨"T", "C", "V", "D"⟩ "tr" ["What?"] [] := by
  decide

/-- C6 (amended): the interactive loop appends a `(question, answer)` pair for
every non-exit question regardless of backend success; the appended answer is
whatever `ask_question_stream` returned — the empty string when the backend
call failed. -/
theorem history_append_unconditional (backend : String → Option (List String))
    (info : VideoInfo) (t raw : String) (rest : List String)
    (h : List (String × String))
    (h1 : pyLower (pyStrip raw) ≠ "exit") (h2 : pyLower (pyStrip raw) ≠ "quit") :
    qaLoop backend info t (raw :: rest) h
      = qaLoop backend info t rest
          (h ++ [(pyStrip raw, ask_question_stream backend info t (pyStrip raw) h)]) := by
  simp only [qaLoop]
  rw [if_neg (not_or.mpr ⟨h1, h2⟩)]

theorem history_append_unconditional_witness :
    qaLoop (fun _ => some ["ans"]) ⟨"T", "C", "V", "D"⟩ "tr" ["Hi"] []
      = qaLoop (fun _ => some ["ans"]) ⟨"T", "C", "V", "D"⟩ "tr" []
          [("Hi", ask_question_stream (fun _ => some ["ans"]) ⟨"T", "C", "V", "D"⟩ "tr" "Hi" [])] :=
  history_append_unconditional (fun _ => some ["ans"]) ⟨"T", "C", "V", "D"⟩ "tr" "Hi" [] []
    (by decide) (by decide)

/-- C7 counterexample: the saved file is not the four-line metadata header
followed directly by a blank line and the transcript body — the code writes a
`Transcript:` label and a second blank line between them. -/
theorem saved_file_has_label_line :
    (save_transcript_with_metadata ⟨"T", "C", "V", "D"⟩ "B" (fun _ => none)) transcriptPath
      ≠ some ("Title: T\nChannel: C\nViews: V\nDescription: D\n\n" ++ "B") := by
  decide

/-- C7 (amended): `save_transcript_with_metadata` writes a single file at the
fixed path `data/transcript.txt`, whose content — independent of any prior
content, hence unconditionally overwritten, never appended — is the four-line
metadata header, a blank line, a `Transcript:` label line, a blank line, and
the transcript body; no other path is touched. -/
theorem save_overwrites_fixed_path (info : VideoInfo) (t : String) (fs fs' : FS) :
    (save_transcript_with_metadata info t fs) transcriptPath
      = some ("Title: " ++ info.title ++ "\n"
          ++ "Channel: " ++ info.channel ++ "\n"
          ++ "Views: " ++ info.views ++ "\n"
          ++ "Description: " ++ truncateDescription info.description ++ "\n\n"
          ++ "Transcript:\n\n" ++ t) ∧
    (save_transcript_with_metadata info t fs) transcriptPath
      = (save_transcript_with_metadata info t fs') transcriptPath ∧
    ∀ p, p ≠ transcriptPath → (save_transcript_with_metadata info t fs) p = fs p := by
  refine ⟨rfl, rfl, ?_⟩
  intro p hp
  simp [save_transcript_with_metadata, hp]

theorem save_overwrites_fixed_path_witness :
    (save_transcript_with_metadata ⟨"T", "C", "V", "D"⟩ "B" (fun _ => none)) "other.txt"
      = none :=
  (save_overwrites_fixed_path ⟨"T", "C", "V", "D"⟩ "B" (fun _ => none) (fun _ => none)).2.2
    "other.txt" (by decide)

set_option maxRecDepth 4000 in
/-- C8 counterexample: for a 151-character description the stored description
field is `151.take 150` plus `"..."`, i.e. 153 characters — more than 150. -/
theorem truncated_description_exceeds_150 :
    ¬ ((truncateDescription (String.mk (List.replicate 151 'a'))).length ≤ 150) := by
  decide

/-- C8 (amended): a description longer than 150 characters is truncated to its
first 150 characters with an ellipsis `"..."` appended — the stored field is
then exactly 153 characters; a description of at most 150 characters is stored
unchanged, at its own length; in every case the stored description field is at
most 153 characters. -/
theorem description_truncation_bound (d : String) :
    (d.length > 150 → truncateDescription d = pyTake d 150 ++ "..." ∧
      (truncateDescription d).length = 153) ∧
    (d.length ≤ 150 → truncateDescription d = d ∧
      (truncateDescription d).length = d.length) ∧
    (truncateDescription d).length ≤ 153 := by
  by_cases hd : d.length > 150
  · have ht : truncateDescription d = pyTake d 150 ++ "..." := by
      rw [truncateDescription, if_pos hd]
    have h150 : (pyTake d 150).length = 150 := by
      show (d.data.take 150).length = 150
      rw [List.length_take]
      have hdl : d.data.length = d.length := rfl
      omega
    have hlen : (truncateDescription d).length = 153 := by
      rw [ht, String.length_append, h150]
      rfl
    exact ⟨fun _ => ⟨ht, hlen⟩, fun hle => absurd hd (by omega), by omega⟩
  · have ht : truncateDescription d = d := by
      rw [truncateDescription, if_neg hd]
    refine ⟨fun hgt => absurd hgt hd, fun _ => ⟨ht, by rw [ht]⟩, ?_⟩
    rw [ht]
    omega

set_option maxRecDepth 4000 in
theorem description_truncation_bound_witness :
    ((String.mk (List.replicate 151 'a')).length > 150 ∧
      (truncateDescription (String.mk (List.replicate 151 'a'))).length = 153) ∧
    (("short" : String).length ≤ 150 ∧ truncateDescription "short" = "short") :=
  ⟨⟨by decide,
    ((description_truncation_bound (String.mk (List.replicate 151 'a'))).1 (by decide)).2⟩,
   ⟨by decide, ((description_truncation_bound "short").2.1 (by decide)).1⟩⟩

/-! ## URL parser lemmas -/

theorem take11Id_append {i : List Char} (r : List Char)
    (hlen : i.length = 11) (hall : i.all isIdChar = true) :
    take11Id (i ++ r) = some (String.mk i) := by
  have ht : (i ++ r).take 11 = i := List.take_left' hlen
  simp only [take11Id, ht]
  rw [if_pos ⟨hlen, hall⟩]

theorem searchFrom_cons_none {c : Char} {cs : List Char}
    (h : matchHere (c :: cs) = none) : searchFrom (c :: cs) = searchFrom cs := by
  rw [searchFrom, h]

theorem searchFrom_cons_some {c : Char} {cs : List Char} {v : String}
    (h : matchHere (c :: cs) = some v) : searchFrom (c :: cs) = some v := by
  rw [searchFrom, h]

theorem take11Id_shape {cs : List Char} {v : String} (h : take11Id cs = some v) :
    v.length = 11 ∧ v.data.all isIdChar = true := by
  simp only [take11Id] at h
  split at h
  · rename_i hc
    cases h
    exact hc
  · cases h

theorem tryMarker_shape {m cs : List Char} {v : String} (h : tryMarker m cs = some v) :
    v.length = 11 ∧ v.data.all isIdChar = true := by
  rw [tryMarker] at h
  split at h
  · cases h
  · exact take11Id_shape h

theorem opt_orElse_cases {x y : Option String} {v : String}
    (h : (x <|> y) = some v) : x = some v ∨ y = some v := by
  cases x with
  | some a => exact Or.inl h
  | none => exact Or.inr h

theorem matchHere_shape {cs : List Char} {v : String} (h : matchHere cs = some v) :
    v.length = 11 ∧ v.data.all isIdChar = true := by
  rw [matchHere] at h
  rcases opt_orElse_cases h with h | h
  · exact tryMarker_shape h
  rcases opt_orElse_cases h with h | h
  · exact tryMarker_shape h
  rcases opt_orElse_cases h with h | h
  · exact tryMarker_shape h
  · exact tryMarker_shape h

theorem searchFrom_shape : ∀ {cs : List Char} {v : String}, searchFrom cs = some v →
    v.length = 11 ∧ v.data.all isIdChar = true := by
  intro cs
  induction cs with
  | nil => intro v h; cases h
  | cons c cs ih =>
    intro v h
    rw [searchFrom] at h
    split at h
    · rename_i w hw
      cases h
      exact matchHere_shape hw
    · exact ih h

theorem searchFrom_none : ∀ {cs : List Char},
    (∀ n, matchHere (cs.drop n) = none) → searchFrom cs = none := by
  intro cs
  induction cs with
  | nil => intro _; rfl
  | cons c cs ih =>
    intro h
    have h0 : matchHere (c :: cs) = none := h 0
    rw [searchFrom, h0]
    exact ih (fun n => h (n + 1))

/-- C9: for every 11-character identifier made of `[0-9A-Za-z_-]` and every
trailing suffix (e.g. query parameters), `get_video_id` extracts that
identifier from each supported URL shape (`youtu.be/`, `watch?v=`, `embed/`,
`shorts/`); on any string it either returns `none` or a valid 11-character
identifier (it is total, never raising); and on any string at which no
position matches the pattern it returns `none`. -/
theorem get_video_id_ok (id rest : String) (hlen : id.length = 11)
    (hall : id.data.all isIdChar = true) :
    get_video_id ("https://youtu.be/" ++ id ++ rest) = some id ∧
    get_video_id ("https://www.youtube.com/watch?v=" ++ id ++ rest) = some id ∧
    get_video_id ("https://youtube.com/embed/" ++ id ++ rest) = some id ∧
    get_video_id ("https://youtube.com/shorts/" ++ id ++ rest) = some id ∧
    (∀ url : String, get_video_id url = none ∨
      ∃ v, get_video_id url = some v ∧ v.length = 11 ∧ v.data.all isIdChar = true) ∧
    (∀ url : String, (∀ n, matchHere (url.data.drop n) = none) →
      get_video_id url = none) := by
  have h1 : take11Id (id.data ++ rest.data) = some id :=
    take11Id_append rest.data hlen hall
  refine ⟨?_, ?_, ?_, ?_, ?_, ?_⟩
  · show searchFrom ("youtu.be/".data ++ (id.data ++ rest.data)) = some id
    apply searchFrom_cons_some
    show (take11Id (id.data ++ rest.data) <|> none) = some id
    rw [h1]
    rfl
  · show searchFrom ("youtube.com/watch?v=".data ++ (id.data ++ rest.data)) = some id
    apply searchFrom_cons_some
    show (take11Id (id.data ++ rest.data) <|> none) = some id
    rw [h1]
    rfl
  · show searchFrom ("youtube.com/embed/".data ++ (id.data ++ rest.data)) = some id
    apply searchFrom_cons_some
    show (take11Id (id.data ++ rest.data) <|> none) = some id
    rw [h1]
    rfl
  · show searchFrom ("youtube.com/shorts/".data ++ (id.data ++ rest.data)) = some id
    apply searchFrom_cons_some
    show take11Id (id.data ++ rest.data) = some id
    exact h1
  · intro url
    match hv : searchFrom url.data with
    | none => exact Or.inl hv
    | some v => exact Or.inr ⟨v, hv, searchFrom_shape hv⟩
  · intro url h
    exact searchFrom_none h

theorem get_video_id_ok_witness :
    ("dQw4w9WgXcQ" : String).length = 11 ∧
    get_video_id ("https://youtu.be/" ++ "dQw4w9WgXcQ" ++ "?si=abc") = some "dQw4w9WgXcQ" :=
  ⟨by decide, (get_video_id_ok "dQw4w9WgXcQ" "?si=abc" (by decide) (by decide)).1⟩

end TubeInsight
